import Mathlib

/-!
Verification of the ProRFL SDK agent (`keycard_script.py`).

The development shallowly embeds the parts of the program the specification
talks about:

* the encoding codec (`lockstr_to_bytes`),
* the device wrappers (`init_usb`, `buzzer`, `close_usb`, `create_card`,
  `delete_card`), modelled against an injected device oracle `Sdk`
  (the vendor DLL is a black box returning status codes),
* the HTTP handlers `api_create_card` and `api_delete_card` as sequential
  state-and-trace functions over a list-backed card store,
* a small interleaving transition system for the concurrency claims about
  the `sdk_lock` serializer.

Python exceptions are modelled with `Except`; every device interaction
emits an event into an explicit trace so that claims about "no device
access" and "close is called exactly once" are about the trace.
Machine-level detail that matters is kept: `ctypes.c_ubyte` masks its
argument modulo 256 (it does not range-check), and Python `//` is floor
division, hence `Int.fdiv`/`Int.emod` below.
-/

namespace Keycard

/-- Observable events of one request: lock traffic and vendor-DLL calls. -/
inductive Ev where
  | lockAcquire
  | lockRelease
  | initUSB
  | closeUSB
  | buzz (fUSB : Int) (tenMs : Int)
  | guestCard
  | cardErase
deriving DecidableEq, Repr

/-- Python exceptions that can escape the handlers.
`httpExc` is the FastAPI `HTTPException` with status and detail;
`valueError` is the `ValueError` raised by `lockstr_to_bytes`;
`typeErrorLenOfNone` is the `TypeError` from `len(None)` when the
`lock_no` field is absent; `deviceFault` stands for an unexpected
exception out of the vendor `GuestCard` call; `storeFailure` is the
store-client exception propagating out of `insert_one`. -/
inductive Err where
  | httpExc (status : Nat) (detail : String)
  | valueError (msg : String)
  | typeErrorLenOfNone
  | deviceFault
  | storeFailure
deriving DecidableEq, Repr

/-- The injected vendor-DLL oracle: the status codes and output data the
DLL returns on this run.  `guestCardFault = true` scripts the `GuestCard`
call raising an unexpected exception instead of returning a code. -/
structure Sdk where
  initUSBCode : Int
  buzzerCode : Int
  guestCardFault : Bool
  guestCardCode : Int
  guestCardData : String
  cardEraseCode : Int
deriving DecidableEq, Repr

/-- `buzzer(fUSB, duration_ms)`: converts milliseconds to 10 ms units with
Python floor division, passes both arguments through `c_ubyte` (which
masks modulo 256), and returns whether the vendor code was 0.  It never
raises. -/
def buzzer (sdk : Sdk) (fUSB : Int) (duration_ms : Int) : Bool × List Ev :=
  let t := Int.fdiv duration_ms 10
  (sdk.buzzerCode == 0, [Ev.buzz (Int.emod fUSB 256) (Int.emod t 256)])

/-- `init_usb()`: calls `initializeUSB(1)` and reports whether it returned 0. -/
def init_usb (sdk : Sdk) : Bool × List Ev :=
  (sdk.initUSBCode == 0, [Ev.initUSB])

/-- `close_usb()`: calls `CloseUSB(1)`; returns nothing and never raises. -/
def close_usb : Unit × List Ev := ((), [Ev.closeUSB])

/-- `lockstr_to_bytes(lockstr)`: rejects inputs whose length is not 8 with
a `ValueError`, otherwise builds the 8-entry `c_ubyte` array of the
character code points (each masked modulo 256 by `c_ubyte`). -/
def lockstr_to_bytes (lockstr : String) : Except Err (List Nat) :=
  if lockstr.length ≠ 8 then
    Except.error (Err.valueError "lockstr must be exactly 8 characters")
  else
    Except.ok (lockstr.data.map (fun c => c.toNat % 256))

/-- Result dictionary of the `create_card` wrapper. -/
inductive CreateRes where
  | success (card_data : String)
  | error (code : Int)
deriving DecidableEq, Repr

/-- `create_card(...)`: one `GuestCard` call; on either outcome the wrapper
sounds the buzzer for 500 ms and returns a status dictionary.  If the
vendor call raises, the exception propagates before the buzzer. -/
def create_card (sdk : Sdk) (hotel_id card_no : Int)
    (checkin_time checkout_time room_no : String) (lock_no : List Nat) :
    Except Err CreateRes × List Ev :=
  if sdk.guestCardFault then
    (Except.error Err.deviceFault, [Ev.guestCard])
  else
    let res := sdk.guestCardCode
    let b := buzzer sdk 1 500
    if res = 0 then
      (Except.ok (CreateRes.success sdk.guestCardData), Ev.guestCard :: b.2)
    else
      (Except.ok (CreateRes.error res), Ev.guestCard :: b.2)

/-- Result dictionary of the `delete_card` wrapper. -/
inductive DeleteRes where
  | success
  | error (code : Int)
deriving DecidableEq, Repr

/-- `delete_card(hotel_id, card_hex_str)`: one `CardErase` call; on either
outcome the wrapper sounds the buzzer for 500 ms. -/
def delete_card (sdk : Sdk) (hotel_id : Int) (card_hex_str : String) :
    DeleteRes × List Ev :=
  let res := sdk.cardEraseCode
  let b := buzzer sdk 1 500
  if res = 0 then (DeleteRes.success, Ev.cardErase :: b.2)
  else (DeleteRes.error res, Ev.cardErase :: b.2)

/-- A document of the `cards` collection as inserted by `api_create_card`. -/
structure CardRecord where
  hotel_id : Int
  card_no : Int
  checkin_time : String
  checkout_time : String
  room_no : String
  card_hex : String
deriving DecidableEq, Repr

/-- JSON body of a `/create_card` request: `data.get(...)` yields `none`
for an absent field. -/
structure CreateReq where
  hotel_id : Option Int
  card_no : Option Int
  checkin_time : Option String
  checkout_time : Option String
  room_no : Option String
  lock_no : Option String
deriving DecidableEq, Repr

/-- Successful JSON response of `/create_card` (the persisted card data). -/
structure CreateResp where
  card_data : String
deriving DecidableEq, Repr

/-- `find_one({"hotel_id": hid}, sort=[("_id", -1)])`: the store list is in
insertion order, so the most recently inserted match is the last match. -/
def find_latest_by_hotel (store : List CardRecord) (hid : Int) :
    Option CardRecord :=
  (store.filter (fun r => r.hotel_id == hid)).getLast?

/-- `delete_one({"hotel_id": hid})`: removes the first matching document in
natural (insertion) order, at most one. -/
def delete_one_by_hotel : List CardRecord → Int → List CardRecord
  | [], _ => []
  | r :: rest, hid =>
      if r.hotel_id = hid then rest else r :: delete_one_by_hotel rest hid

/-- The `/create_card` handler.  Faithful control flow of the source:
the lock string is encoded *before* the missing-parameters check (an
absent `lock_no` therefore raises `TypeError` inside `len`); then the
missing check; then, under `sdk_lock`: buzzer(1, 1000), `init_usb` (a
failure raises before the `try`, so no `close_usb`), then
`create_card` inside `try ... finally close_usb()`.  On device success
the record is inserted (`insertOk = false` scripts `insert_one`
raising); on a nonzero device code an `HTTPException(500)` carrying the
code is raised; any exception passes through the `finally` teardown. -/
def api_create_card (sdk : Sdk) (insertOk : Bool) (store : List CardRecord)
    (req : CreateReq) : Except Err CreateResp × List CardRecord × List Ev :=
  match req.lock_no with
  | none => (Except.error Err.typeErrorLenOfNone, store, [])
  | some lockStr =>
    match lockstr_to_bytes lockStr with
    | Except.error e => (Except.error e, store, [])
    | Except.ok lock_bytes =>
      match req.hotel_id, req.card_no, req.checkin_time,
            req.checkout_time, req.room_no with
      | some hid, some cn, some ci, some co, some rm =>
        let b1 := buzzer sdk 1 1000
        let iu := init_usb sdk
        let pre := Ev.lockAcquire :: (b1.2 ++ iu.2)
        if iu.1 = false then
          (Except.error (Err.httpExc 500 "USB initialization failed"),
           store, pre ++ [Ev.lockRelease])
        else
          match create_card sdk hid cn ci co rm lock_bytes with
          | (Except.error e, cev) =>
            (Except.error e, store, pre ++ cev ++ [Ev.closeUSB, Ev.lockRelease])
          | (Except.ok (CreateRes.success card_data), cev) =>
            if insertOk then
              (Except.ok ⟨card_data⟩,
               store ++ [⟨hid, cn, ci, co, rm, card_data⟩],
               pre ++ cev ++ [Ev.closeUSB, Ev.lockRelease])
            else
              (Except.error Err.storeFailure, store,
               pre ++ cev ++ [Ev.closeUSB, Ev.lockRelease])
          | (Except.ok (CreateRes.error code), cev) =>
            (Except.error (Err.httpExc 500
               ("Card creation failed (code=" ++ toString code ++ ")")),
             store, pre ++ cev ++ [Ev.closeUSB, Ev.lockRelease])
      | _, _, _, _, _ =>
        (Except.error (Err.httpExc 400 "Missing required parameters"), store, [])

/-- The `/delete_card` handler.  Looks up the most recent record for the
hotel id; a miss raises `HTTPException(404)` before any lock or device
access; an empty stored `card_hex` raises `HTTPException(400)`.  Then,
under `sdk_lock`: buzzer(1, 1000), `init_usb`, `delete_card` inside
`try ... finally close_usb()`; on device success `delete_one` removes
one matching record. -/
def api_delete_card (sdk : Sdk) (store : List CardRecord) (hotel_id : Int) :
    Except Err Unit × List CardRecord × List Ev :=
  match find_latest_by_hotel store hotel_id with
  | none =>
    (Except.error (Err.httpExc 404
       ("Card not found for hotel_id " ++ toString hotel_id)), store, [])
  | some card_data =>
    if card_data.card_hex = "" then
      (Except.error (Err.httpExc 400 "Missing card data"), store, [])
    else
      let b1 := buzzer sdk 1 1000
      let iu := init_usb sdk
      let pre := Ev.lockAcquire :: (b1.2 ++ iu.2)
      if iu.1 = false then
        (Except.error (Err.httpExc 500 "USB initialization failed"),
         store, pre ++ [Ev.lockRelease])
      else
        match delete_card sdk hotel_id card_data.card_hex with
        | (DeleteRes.success, dev) =>
          (Except.ok (), delete_one_by_hotel store hotel_id,
           pre ++ dev ++ [Ev.closeUSB, Ev.lockRelease])
        | (DeleteRes.error code, dev) =>
          (Except.error (Err.httpExc 500
             ("Card deletion failed (code=" ++ toString code ++ ")")),
           store, pre ++ dev ++ [Ev.closeUSB, Ev.lockRelease])

/-!
Concurrency model.

The handlers run concurrently; the only synchronisation is the single
`threading.Lock` named `sdk_lock`.  We model each request as a thread
running one of four programs and let an interleaving scheduler pick
steps.  The locked handlers (`/create_card`, `/readcard`, `/delete_card`)
go `start →(acquire)→ locked →(buzz + init_usb)→ opened →(device call)→
called →(close_usb)→ closed →(release)→ done`, with an early exit when
`init_usb` fails (the `HTTPException` leaves the `with` block, which
releases the lock without a `close_usb`).  The `/buzzer` endpoint calls
the vendor buzzer directly, with no lock: `start →(buzz)→ done`.
A *session bracket* is open while a thread sits between a successful
open and the close, i.e. in phase `opened` or `called`. -/

/-- Which handler a thread is executing. -/
inductive Op where
  | issue
  | readc
  | erase
  | buzzOnly
deriving DecidableEq, Repr

/-- Program counter of one thread. -/
inductive Phase where
  | start
  | locked
  | opened
  | called
  | closed
  | done
deriving DecidableEq, Repr

/-- The three handlers that run their device section under `sdk_lock`. -/
def lockedOp : Op → Bool
  | Op.issue => true
  | Op.readc => true
  | Op.erase => true
  | Op.buzzOnly => false

/-- Phases during which the thread is inside its `with sdk_lock` block. -/
def holdsPhase : Phase → Bool
  | Phase.locked => true
  | Phase.opened => true
  | Phase.called => true
  | Phase.closed => true
  | Phase.start => false
  | Phase.done => false

/-- Phases during which the session bracket of the thread is open
(`init_usb` succeeded, `close_usb` not yet executed). -/
def inBracket : Phase → Bool
  | Phase.opened => true
  | Phase.called => true
  | _ => false

/-- Global state: who holds `sdk_lock`, and the position of every thread. -/
structure Sys where
  lock : Option Nat
  thr : List (Op × Phase)
deriving DecidableEq, Repr

/-- One interleaving step.  Only `acquire` is guarded by the lock being
free; leaving the `with` block (`initFail`, `release`) frees it.  The
standalone buzzer endpoint (`buzzSolo`) never touches the lock. -/
inductive Step : Sys → Sys → Prop where
  | acquire (s : Sys) (i : Nat) (op : Op)
      (ho : s.thr[i]? = some (op, Phase.start)) (hop : lockedOp op = true)
      (hl : s.lock = none) :
      Step s ⟨some i, s.thr.set i (op, Phase.locked)⟩
  | initOk (s : Sys) (i : Nat) (op : Op)
      (ho : s.thr[i]? = some (op, Phase.locked)) :
      Step s ⟨s.lock, s.thr.set i (op, Phase.opened)⟩
  | initFail (s : Sys) (i : Nat) (op : Op)
      (ho : s.thr[i]? = some (op, Phase.locked)) :
      Step s ⟨none, s.thr.set i (op, Phase.done)⟩
  | devCall (s : Sys) (i : Nat) (op : Op)
      (ho : s.thr[i]? = some (op, Phase.opened)) :
      Step s ⟨s.lock, s.thr.set i (op, Phase.called)⟩
  | closeDev (s : Sys) (i : Nat) (op : Op)
      (ho : s.thr[i]? = some (op, Phase.called)) :
      Step s ⟨s.lock, s.thr.set i (op, Phase.closed)⟩
  | release (s : Sys) (i : Nat) (op : Op)
      (ho : s.thr[i]? = some (op, Phase.closed)) :
      Step s ⟨none, s.thr.set i (op, Phase.done)⟩
  | buzzSolo (s : Sys) (i : Nat)
      (ho : s.thr[i]? = some (Op.buzzOnly, Phase.start)) :
      Step s ⟨s.lock, s.thr.set i (Op.buzzOnly, Phase.done)⟩

/-- Initial state: lock free, every thread at its entry point. -/
def initSys (ops : List Op) : Sys :=
  ⟨none, ops.map (fun o => (o, Phase.start))⟩

/-- Reachability of a global state from the initial state. -/
def Reach (ops : List Op) (s : Sys) : Prop :=
  Relation.ReflTransGen Step (initSys ops) s

/-- Lock-ownership invariant: a thread anywhere inside its `with sdk_lock`
block is the thread the lock records as its holder. -/
def LockInv (s : Sys) : Prop :=
  ∀ i op ph, s.thr[i]? = some (op, ph) → holdsPhase ph = true →
    s.lock = some i

/-- Mutual exclusion of session brackets in a state: any two threads with
an open bracket coincide. -/
def MutexBrackets (s : Sys) : Prop :=
  ∀ (i j : Nat) (opi : Op) (phi : Phase) (opj : Op) (phj : Phase),
    s.thr[i]? = some (opi, phi) →
    s.thr[j]? = some (opj, phj) →
    inBracket phi = true → inBracket phj = true → i = j

/-- Negation target for the standalone-buzzer claim: along no reachable
step does a `/buzzer` thread fire its vendor buzzer call (its single
`start → done` step) while the session bracket of some thread is open. -/
def NoSoloBuzzDuringBracket (ops : List Op) : Prop :=
  ∀ (s t : Sys) (i j : Nat) (opj : Op) (phj : Phase), Reach ops s → Step s t →
    s.thr[i]? = some (Op.buzzOnly, Phase.start) →
    t.thr[i]? = some (Op.buzzOnly, Phase.done) →
    s.thr[j]? = some (opj, phj) → inBracket phj = true → False

/-!
Concrete fixtures.

A scripted device oracle and a small two-thread schedule (one `/create_card`
request, one standalone `/buzzer` request), used to evaluate the theorems
on concrete inputs. -/

/-- A device oracle on which every vendor call succeeds. -/
def sdk0 : Sdk :=
  { initUSBCode := 0, buzzerCode := 0, guestCardFault := false,
    guestCardCode := 0, guestCardData := "A1B2C3D4", cardEraseCode := 0 }

/-- Two threads: thread 0 runs `/create_card`, thread 1 runs `/buzzer`. -/
def cxOps : List Op := [Op.issue, Op.buzzOnly]

/-- Thread 0 has acquired `sdk_lock`. -/
def cxS1 : Sys := ⟨some 0, [(Op.issue, Phase.locked), (Op.buzzOnly, Phase.start)]⟩

/-- Thread 0 has opened its session bracket (`init_usb` succeeded). -/
def cxS2 : Sys := ⟨some 0, [(Op.issue, Phase.opened), (Op.buzzOnly, Phase.start)]⟩

/-- Thread 1 has fired its unsynchronised vendor buzzer call while the
bracket of thread 0 is still open. -/
def cxS3 : Sys := ⟨some 0, [(Op.issue, Phase.opened), (Op.buzzOnly, Phase.done)]⟩

/-!
Lock invariant and bracket mutual exclusion.
-/

theorem holdsPhase_of_inBracket {ph : Phase} (h : inBracket ph = true) :
    holdsPhase ph = true := by
  cases ph <;> simp_all [inBracket, holdsPhase]

theorem lockInv_initSys (ops : List Op) : LockInv (initSys ops) := by
  intro i op ph h hph
  rw [show (initSys ops).thr = ops.map (fun o => (o, Phase.start)) from rfl,
    List.getElem?_map] at h
  cases hm : ops[i]? with
  | none => rw [hm] at h; simp at h
  | some o =>
    rw [hm] at h
    have hps : Phase.start = ph := congrArg Prod.snd (Option.some.inj h)
    rw [← hps] at hph
    exact absurd hph (by decide)

theorem lockInv_step {s t : Sys} (hst : Step s t) (hinv : LockInv s) :
    LockInv t := by
  cases hst with
  | acquire i op ho hop hl =>
    intro j opj phj hj hph
    by_cases hij : i = j
    · exact (hij ▸ rfl : (⟨some i, s.thr.set i (op, Phase.locked)⟩ : Sys).lock = some j)
    · rw [show (⟨some i, s.thr.set i (op, Phase.locked)⟩ : Sys).thr
          = s.thr.set i (op, Phase.locked) from rfl,
        List.getElem?_set_ne hij] at hj
      have := hinv j opj phj hj hph
      rw [hl] at this
      exact absurd this (by simp)
  | initOk i op ho =>
    intro j opj phj hj hph
    by_cases hij : i = j
    · subst hij
      exact hinv i op Phase.locked ho rfl
    · rw [show (⟨s.lock, s.thr.set i (op, Phase.opened)⟩ : Sys).thr
          = s.thr.set i (op, Phase.opened) from rfl,
        List.getElem?_set_ne hij] at hj
      exact hinv j opj phj hj hph
  | initFail i op ho =>
    intro j opj phj hj hph
    by_cases hij : i = j
    · subst hij
      obtain ⟨hlt, hget⟩ := List.getElem?_eq_some.mp ho
      rw [show (⟨none, s.thr.set i (op, Phase.done)⟩ : Sys).thr
          = s.thr.set i (op, Phase.done) from rfl,
        List.getElem?_set_self hlt] at hj
      obtain ⟨-, h2⟩ := Prod.mk.injEq .. ▸ Option.some.injEq .. ▸ hj
      rw [← h2] at hph
      simp [holdsPhase] at hph
    · rw [show (⟨none, s.thr.set i (op, Phase.done)⟩ : Sys).thr
          = s.thr.set i (op, Phase.done) from rfl,
        List.getElem?_set_ne hij] at hj
      have h1 := hinv i op Phase.locked ho rfl
      have h2 := hinv j opj phj hj hph
      rw [h1] at h2
      exact absurd (Option.some.injEq .. ▸ h2) hij
  | devCall i op ho =>
    intro j opj phj hj hph
    by_cases hij : i = j
    · subst hij
      exact hinv i op Phase.opened ho rfl
    · rw [show (⟨s.lock, s.thr.set i (op, Phase.called)⟩ : Sys).thr
          = s.thr.set i (op, Phase.called) from rfl,
        List.getElem?_set_ne hij] at hj
      exact hinv j opj phj hj hph
  | closeDev i op ho =>
    intro j opj phj hj hph
    by_cases hij : i = j
    · subst hij
      exact hinv i op Phase.called ho rfl
    · rw [show (⟨s.lock, s.thr.set i (op, Phase.closed)⟩ : Sys).thr
          = s.thr.set i (op, Phase.closed) from rfl,
        List.getElem?_set_ne hij] at hj
      exact hinv j opj phj hj hph
  | release i op ho =>
    intro j opj phj hj hph
    by_cases hij : i = j
    · subst hij
      obtain ⟨hlt, hget⟩ := List.getElem?_eq_some.mp ho
      rw [show (⟨none, s.thr.set i (op, Phase.done)⟩ : Sys).thr
          = s.thr.set i (op, Phase.done) from rfl,
        List.getElem?_set_self hlt] at hj
      obtain ⟨-, h2⟩ := Prod.mk.injEq .. ▸ Option.some.injEq .. ▸ hj
      rw [← h2] at hph
      simp [holdsPhase] at hph
    · rw [show (⟨none, s.thr.set i (op, Phase.done)⟩ : Sys).thr
          = s.thr.set i (op, Phase.done) from rfl,
        List.getElem?_set_ne hij] at hj
      have h1 := hinv i op Phase.closed ho rfl
      have h2 := hinv j opj phj hj hph
      rw [h1] at h2
      exact absurd (Option.some.injEq .. ▸ h2) hij
  | buzzSolo i ho =>
    intro j opj phj hj hph
    by_cases hij : i = j
    · subst hij
      obtain ⟨hlt, hget⟩ := List.getElem?_eq_some.mp ho
      rw [show (⟨s.lock, s.thr.set i (Op.buzzOnly, Phase.done)⟩ : Sys).thr
          = s.thr.set i (Op.buzzOnly, Phase.done) from rfl,
        List.getElem?_set_self hlt] at hj
      obtain ⟨-, h2⟩ := Prod.mk.injEq .. ▸ Option.some.injEq .. ▸ hj
      rw [← h2] at hph
      simp [holdsPhase] at hph
    · rw [show (⟨s.lock, s.thr.set i (Op.buzzOnly, Phase.done)⟩ : Sys).thr
          = s.thr.set i (Op.buzzOnly, Phase.done) from rfl,
        List.getElem?_set_ne hij] at hj
      exact hinv j opj phj hj hph

theorem lockInv_reach {ops : List Op} {s : Sys} (h : Reach ops s) :
    LockInv s := by
  induction h with
  | refl => exact lockInv_initSys ops
  | tail _ hstep ih => exact lockInv_step hstep ih

/-!
Store lemmas.
-/

theorem find_latest_append_self (store : List CardRecord) (r0 : CardRecord)
    (hid : Int) (h : r0.hotel_id = hid) :
    find_latest_by_hotel (store ++ [r0]) hid = some r0 := by
  unfold find_latest_by_hotel
  rw [List.filter_append]
  simp [h, List.getLast?_concat]

theorem find_latest_none_of_not_mem (store : List CardRecord) (hid : Int)
    (h : ∀ r ∈ store, r.hotel_id ≠ hid) :
    find_latest_by_hotel store hid = none := by
  unfold find_latest_by_hotel
  have hfil : store.filter (fun r => r.hotel_id == hid) = [] :=
    List.filter_eq_nil_iff.mpr (fun r hr => by simp [h r hr])
  rw [hfil]
  rfl

theorem delete_one_append_of_not_mem (store : List CardRecord)
    (r0 : CardRecord) (hid : Int) (hr : r0.hotel_id = hid)
    (h : ∀ r ∈ store, r.hotel_id ≠ hid) :
    delete_one_by_hotel (store ++ [r0]) hid = store := by
  induction store with
  | nil => simp [delete_one_by_hotel, hr]
  | cons a as ih =>
    have ha : a.hotel_id ≠ hid := h a (by simp)
    simp only [List.cons_append, delete_one_by_hotel, if_neg ha]
    exact congrArg (List.cons a) (ih (fun r hrm => h r (by simp [hrm])))

/-!
Claims about the codec and the buzzer.
-/

/-- C7: for every lock string of exactly 8 characters (each character an
ASCII character, so that it has an ASCII code), `lockstr_to_bytes`
succeeds and returns exactly 8 bytes where byte `i` is the ASCII code of
character `i` of the input, in order. -/
theorem c7_encode_lock_correct (s : String) (h8 : s.length = 8)
    (hascii : ∀ c ∈ s.data, c.toNat < 128) :
    ∃ l, lockstr_to_bytes s = Except.ok l ∧ l.length = 8 ∧
      ∀ (i : Nat) (hi : i < l.length) (hs : i < s.data.length),
        l.get ⟨i, hi⟩ = (s.data.get ⟨i, hs⟩).toNat := by
  refine ⟨s.data.map (fun c => c.toNat % 256), ?_, ?_, ?_⟩
  · simp [lockstr_to_bytes, h8]
  · rw [List.length_map]
    exact h8
  · intro i hi hs
    simp only [List.get_eq_getElem, List.getElem_map]
    exact Nat.mod_eq_of_lt
      (lt_trans (hascii _ (List.getElem_mem hs)) (by norm_num))

/-- C7 witness: the literal lock string "01000808". -/
theorem c7_encode_lock_correct_witness :
    ∃ l, lockstr_to_bytes "01000808" = Except.ok l ∧ l.length = 8 ∧
      ∀ (i : Nat) (hi : i < l.length)
        (hs : i < ("01000808" : String).data.length),
        l.get ⟨i, hi⟩ = (("01000808" : String).data.get ⟨i, hs⟩).toNat :=
  c7_encode_lock_correct "01000808" (by decide) (by decide)

/-- C8: for every lock string whose length is not 8, the issue handler
fails with the `InvalidInput`-class error (the `ValueError` raised by
`lockstr_to_bytes`), the store is untouched and the trace is empty: no
device access, no serializer acquisition, no session. -/
theorem c8_bad_lock_length_rejected (sdk : Sdk) (insertOk : Bool)
    (store : List CardRecord) (req : CreateReq) (lockStr : String)
    (hl : req.lock_no = some lockStr) (h8 : lockStr.length ≠ 8) :
    api_create_card sdk insertOk store req =
      (Except.error (Err.valueError "lockstr must be exactly 8 characters"),
       store, []) := by
  unfold api_create_card
  rw [hl]
  simp [lockstr_to_bytes, h8]

/-- C8 witness: a 7-character lock string. -/
theorem c8_bad_lock_length_rejected_witness :
    api_create_card sdk0 true []
        ⟨some 7, some 3, some "2509180000", some "2509190000", some "12",
         some "0100080"⟩ =
      (Except.error (Err.valueError "lockstr must be exactly 8 characters"),
       [], []) :=
  c8_bad_lock_length_rejected sdk0 true [] _ "0100080" rfl (by decide)

/-- C9 counterexample: at `duration_ms = 5000` (a value the `/buzzer`
endpoint accepts), `duration_ms // 10 = 500`, but the vendor buzzer call
receives `244 = 500 mod 256` because `c_ubyte` masks its argument — not
the quotient itself, as the claim states. -/
theorem c9_buzzer_counterexample :
    (buzzer sdk0 1 5000).2 = [Ev.buzz 1 244] ∧
    Int.fdiv 5000 10 = 500 ∧ (244 : Int) ≠ 500 := by
  refine ⟨rfl, rfl, by decide⟩

/-- C9 (amended): `buzzer` converts the duration to 10 ms units by Python
floor division and passes the result through `c_ubyte`, i.e. reduced
modulo 256; it returns `true` iff the vendor code is 0 and never raises
(it is a total function into `Bool`).  Whenever the unit count fits in a
byte (`0 ≤ duration_ms < 2560`), the vendor call does receive exactly
`duration_ms // 10`. -/
theorem c9_buzzer_conversion (sdk : Sdk) (fUSB duration_ms : Int) :
    ((buzzer sdk fUSB duration_ms).1 = true ↔ sdk.buzzerCode = 0) ∧
    (buzzer sdk fUSB duration_ms).2 =
      [Ev.buzz (Int.emod fUSB 256) (Int.emod (Int.fdiv duration_ms 10) 256)] ∧
    (0 ≤ duration_ms → duration_ms < 2560 →
      Int.emod (Int.fdiv duration_ms 10) 256 = Int.fdiv duration_ms 10) := by
  refine ⟨beq_iff_eq, rfl, ?_⟩
  intro hlo hhi
  rw [Int.fdiv_eq_ediv _ (by norm_num)]
  show duration_ms / 10 % 256 = duration_ms / 10
  omega

/-- C9 amended witness: at `duration_ms = 500` the device receives 50. -/
theorem c9_buzzer_conversion_witness :
    ((buzzer sdk0 1 500).1 = true ↔ sdk0.buzzerCode = 0) ∧
    (buzzer sdk0 1 500).2 =
      [Ev.buzz (Int.emod 1 256) (Int.emod (Int.fdiv 500 10) 256)] ∧
    (0 ≤ (500 : Int) → (500 : Int) < 2560 →
      Int.emod (Int.fdiv 500 10) 256 = Int.fdiv 500 10) :=
  c9_buzzer_conversion sdk0 1 500

/-- C10: in the issue handler the lock string is encoded *before* the
missing-parameters check, so a request without a `lock_no` field faults
inside `len` with a `TypeError` — whatever the other fields are — and
the 400 "Missing required parameters" rejection is unreachable for a
missing lock identifier. -/
theorem c10_missing_lock_faults_in_encoding (sdk : Sdk) (insertOk : Bool)
    (store : List CardRecord) (req : CreateReq) (hl : req.lock_no = none) :
    api_create_card sdk insertOk store req =
      (Except.error Err.typeErrorLenOfNone, store, []) ∧
    Err.typeErrorLenOfNone ≠ Err.httpExc 400 "Missing required parameters" := by
  constructor
  · unfold api_create_card
    rw [hl]
  · intro h
    cases h

/-- C10 witness: a request missing both `lock_no` and every other field
still dies in encoding, not in the missing-parameters check. -/
theorem c10_missing_lock_faults_in_encoding_witness :
    api_create_card sdk0 true [] ⟨none, none, none, none, none, none⟩ =
      (Except.error Err.typeErrorLenOfNone, [], []) ∧
    Err.typeErrorLenOfNone ≠ Err.httpExc 400 "Missing required parameters" :=
  c10_missing_lock_faults_in_encoding sdk0 true [] _ rfl

/-!
Claims about issue and erase orchestration.
-/

/-- C3: in every issue request in which `open()` (`init_usb`) succeeded,
`close_usb` appears exactly once in the trace, on every exit path —
normal return, nonzero device code, unexpected device fault, and store
failure alike — and an unexpected device fault still propagates to the
caller after the teardown. -/
theorem c3_close_exactly_once (sdk : Sdk) (insertOk : Bool)
    (store : List CardRecord) (hid cn : Int) (ci co rm lockStr : String)
    (h8 : lockStr.length = 8) (hinit : sdk.initUSBCode = 0) :
    ((api_create_card sdk insertOk store
        ⟨some hid, some cn, some ci, some co, some rm, some lockStr⟩).2.2).count
        Ev.closeUSB = 1 ∧
    (sdk.guestCardFault = true →
      (api_create_card sdk insertOk store
        ⟨some hid, some cn, some ci, some co, some rm, some lockStr⟩).1 =
      Except.error Err.deviceFault) := by
  have hne : ¬ lockStr.length ≠ 8 := fun h => h h8
  by_cases hf : sdk.guestCardFault
  · refine ⟨?_, fun _ => ?_⟩ <;>
      simp [api_create_card, lockstr_to_bytes, hne, init_usb, hinit, buzzer,
        create_card, hf, List.count_append, List.count_cons]
  · refine ⟨?_, fun hcontra => absurd hcontra hf⟩
    by_cases hc : sdk.guestCardCode = 0
    · by_cases hins : insertOk = true <;>
        simp [api_create_card, lockstr_to_bytes, hne, init_usb, hinit, buzzer,
          create_card, hf, hc, hins, List.count_append, List.count_cons]
    · simp [api_create_card, lockstr_to_bytes, hne, init_usb, hinit, buzzer,
        create_card, hf, hc, List.count_append, List.count_cons]

/-- C3 witness: a concrete issue request against the all-success oracle. -/
theorem c3_close_exactly_once_witness :
    ((api_create_card sdk0 true []
        ⟨some 7, some 3, some "2509180000", some "2509190000", some "12",
         some "01000808"⟩).2.2).count Ev.closeUSB = 1 ∧
    (sdk0.guestCardFault = true →
      (api_create_card sdk0 true []
        ⟨some 7, some 3, some "2509180000", some "2509190000", some "12",
         some "01000808"⟩).1 = Except.error Err.deviceFault) :=
  c3_close_exactly_once sdk0 true [] 7 3 "2509180000" "2509190000" "12"
    "01000808" (by decide) rfl

/-- C4: issue is atomic with respect to the store.  If the device call
returns a nonzero code, the handler fails with the
`DeviceOperationFailed`-class error (`HTTPException(500)` carrying that
code) and no record is inserted; if the code is zero (and the insert
succeeds), the record (hotel id, card number, validity window, room,
encoded card data) is appended to the store. -/
theorem c4_issue_atomicity (sdk : Sdk) (store : List CardRecord)
    (hid cn : Int) (ci co rm lockStr : String)
    (h8 : lockStr.length = 8) (hinit : sdk.initUSBCode = 0)
    (hnf : sdk.guestCardFault = false) :
    (sdk.guestCardCode ≠ 0 →
      (api_create_card sdk true store
          ⟨some hid, some cn, some ci, some co, some rm, some lockStr⟩).1 =
        Except.error (Err.httpExc 500
          ("Card creation failed (code=" ++ toString sdk.guestCardCode ++ ")")) ∧
      (api_create_card sdk true store
          ⟨some hid, some cn, some ci, some co, some rm, some lockStr⟩).2.1 =
        store) ∧
    (sdk.guestCardCode = 0 →
      (api_create_card sdk true store
          ⟨some hid, some cn, some ci, some co, some rm, some lockStr⟩).1 =
        Except.ok ⟨sdk.guestCardData⟩ ∧
      (api_create_card sdk true store
          ⟨some hid, some cn, some ci, some co, some rm, some lockStr⟩).2.1 =
        store ++ [⟨hid, cn, ci, co, rm, sdk.guestCardData⟩]) := by
  have hne : ¬ lockStr.length ≠ 8 := fun h => h h8
  constructor
  · intro hc
    constructor <;>
      simp [api_create_card, lockstr_to_bytes, hne, init_usb, hinit, buzzer,
        create_card, hnf, hc]
  · intro hc
    constructor <;>
      simp [api_create_card, lockstr_to_bytes, hne, init_usb, hinit, buzzer,
        create_card, hnf, hc]

/-- C4 witness: the all-success oracle at a concrete request. -/
theorem c4_issue_atomicity_witness :
    (sdk0.guestCardCode ≠ 0 →
      (api_create_card sdk0 true []
          ⟨some 7, some 3, some "2509180000", some "2509190000", some "12",
           some "01000808"⟩).1 =
        Except.error (Err.httpExc 500
          ("Card creation failed (code=" ++ toString sdk0.guestCardCode ++ ")")) ∧
      (api_create_card sdk0 true []
          ⟨some 7, some 3, some "2509180000", some "2509190000", some "12",
           some "01000808"⟩).2.1 = []) ∧
    (sdk0.guestCardCode = 0 →
      (api_create_card sdk0 true []
          ⟨some 7, some 3, some "2509180000", some "2509190000", some "12",
           some "01000808"⟩).1 = Except.ok ⟨sdk0.guestCardData⟩ ∧
      (api_create_card sdk0 true []
          ⟨some 7, some 3, some "2509180000", some "2509190000", some "12",
           some "01000808"⟩).2.1 =
        [⟨7, 3, "2509180000", "2509190000", "12", sdk0.guestCardData⟩]) :=
  c4_issue_atomicity sdk0 [] 7 3 "2509180000" "2509190000" "12"
    "01000808" (by decide) rfl rfl

/-- C5: when the device call succeeds but the store write fails, the
handler propagates the store-client exception (`storeFailure`, the
realisation of `PostIssuePersistenceFailure`), which is a different
error from every `DeviceOperationFailed`-style `HTTPException` — it is
surfaced, not swallowed, and the store is unchanged. -/
theorem c5_post_issue_persistence_failure (sdk : Sdk)
    (store : List CardRecord) (hid cn : Int) (ci co rm lockStr : String)
    (h8 : lockStr.length = 8) (hinit : sdk.initUSBCode = 0)
    (hnf : sdk.guestCardFault = false) (hgc : sdk.guestCardCode = 0) :
    (api_create_card sdk false store
        ⟨some hid, some cn, some ci, some co, some rm, some lockStr⟩).1 =
      Except.error Err.storeFailure ∧
    (api_create_card sdk false store
        ⟨some hid, some cn, some ci, some co, some rm, some lockStr⟩).2.1 =
      store ∧
    ∀ (st : Nat) (d : String), Err.storeFailure ≠ Err.httpExc st d := by
  have hne : ¬ lockStr.length ≠ 8 := fun h => h h8
  refine ⟨?_, ?_, fun st d h => by cases h⟩ <;>
    simp [api_create_card, lockstr_to_bytes, hne, init_usb, hinit, buzzer,
      create_card, hnf, hgc]

/-- C5 witness: device success with a scripted `insert_one` failure. -/
theorem c5_post_issue_persistence_failure_witness :
    (api_create_card sdk0 false []
        ⟨some 7, some 3, some "2509180000", some "2509190000", some "12",
         some "01000808"⟩).1 = Except.error Err.storeFailure ∧
    (api_create_card sdk0 false []
        ⟨some 7, some 3, some "2509180000", some "2509190000", some "12",
         some "01000808"⟩).2.1 = [] ∧
    ∀ (st : Nat) (d : String), Err.storeFailure ≠ Err.httpExc st d :=
  c5_post_issue_persistence_failure sdk0 [] 7 3 "2509180000" "2509190000"
    "12" "01000808" (by decide) rfl rfl rfl

/-- C6: starting from a store with no record for the hotel id, issuing a
card appends exactly one record; erasing for that hotel id then succeeds
and removes exactly that record (the store returns to its original
value); a second erase fails with the `CardNotFound`-class error
(`HTTPException(404)`) — and whenever no record exists for the hotel id,
erase fails that way with an empty trace, i.e. before any device
access. -/
theorem c6_erase_ordering (sdk : Sdk) (store : List CardRecord)
    (hid cn : Int) (ci co rm lockStr : String)
    (h8 : lockStr.length = 8) (hinit : sdk.initUSBCode = 0)
    (hnf : sdk.guestCardFault = false) (hgc : sdk.guestCardCode = 0)
    (her : sdk.cardEraseCode = 0) (hdata : sdk.guestCardData ≠ "")
    (hstore : ∀ r ∈ store, r.hotel_id ≠ hid) :
    (api_create_card sdk true store
        ⟨some hid, some cn, some ci, some co, some rm, some lockStr⟩).2.1 =
      store ++ [⟨hid, cn, ci, co, rm, sdk.guestCardData⟩] ∧
    (api_delete_card sdk
        (store ++ [⟨hid, cn, ci, co, rm, sdk.guestCardData⟩]) hid).1 =
      Except.ok () ∧
    (api_delete_card sdk
        (store ++ [⟨hid, cn, ci, co, rm, sdk.guestCardData⟩]) hid).2.1 =
      store ∧
    api_delete_card sdk store hid =
      (Except.error (Err.httpExc 404
         ("Card not found for hotel_id " ++ toString hid)), store, []) := by
  have hne : ¬ lockStr.length ≠ 8 := fun h => h h8
  have hfind := find_latest_append_self store
    ⟨hid, cn, ci, co, rm, sdk.guestCardData⟩ hid rfl
  have hdel := delete_one_append_of_not_mem store
    ⟨hid, cn, ci, co, rm, sdk.guestCardData⟩ hid rfl hstore
  refine ⟨?_, ?_, ?_, ?_⟩
  · simp [api_create_card, lockstr_to_bytes, hne, init_usb, hinit, buzzer,
      create_card, hnf, hgc]
  · simp [api_delete_card, hfind, hdata, init_usb, hinit, buzzer,
      delete_card, her]
  · simp [api_delete_card, hfind, hdata, init_usb, hinit, buzzer,
      delete_card, her, hdel]
  · have h404 := find_latest_none_of_not_mem store hid hstore
    simp [api_delete_card, h404]

/-- C6 witness: issue then erase then erase again, from an empty store,
against the all-success oracle. -/
theorem c6_erase_ordering_witness :
    (api_create_card sdk0 true []
        ⟨some 7, some 3, some "2509180000", some "2509190000", some "12",
         some "01000808"⟩).2.1 =
      [] ++ [⟨7, 3, "2509180000", "2509190000", "12", sdk0.guestCardData⟩] ∧
    (api_delete_card sdk0
        ([] ++ [⟨7, 3, "2509180000", "2509190000", "12",
                 sdk0.guestCardData⟩]) 7).1 = Except.ok () ∧
    (api_delete_card sdk0
        ([] ++ [⟨7, 3, "2509180000", "2509190000", "12",
                 sdk0.guestCardData⟩]) 7).2.1 = [] ∧
    api_delete_card sdk0 [] 7 =
      (Except.error (Err.httpExc 404
         ("Card not found for hotel_id " ++ toString (7 : Int))), [], []) :=
  c6_erase_ordering sdk0 [] 7 3 "2509180000" "2509190000" "12" "01000808"
    (by decide) rfl rfl rfl rfl (by decide) (by simp)

/-!
Claims about the serializer.
-/

/-- C1: in every state reachable under any interleaving of any number of
issue, read, erase and standalone-buzzer requests, at most one Device
Session Manager bracket (open → device call → close) is in flight: any
two threads whose brackets are open coincide, so no two brackets ever
overlap in time. -/
theorem c1_bracket_mutual_exclusion (ops : List Op) (s : Sys)
    (h : Reach ops s) : MutexBrackets s := by
  have hinv := lockInv_reach h
  intro i j opi phi opj phj hi hj hbi hbj
  have h1 := hinv i opi phi hi (holdsPhase_of_inBracket hbi)
  have h2 := hinv j opj phj hj (holdsPhase_of_inBracket hbj)
  rw [h1] at h2
  exact Option.some.inj h2

/-- C1 witness: a concrete reachable state of one issue thread and one
standalone-buzzer thread, with the bracket of the issue thread open. -/
theorem c1_bracket_mutual_exclusion_witness : MutexBrackets cxS2 :=
  c1_bracket_mutual_exclusion cxOps cxS2
    (Relation.ReflTransGen.tail
      (Relation.ReflTransGen.tail Relation.ReflTransGen.refl
        (Step.acquire (initSys cxOps) 0 Op.issue rfl rfl rfl))
      (Step.initOk cxS1 0 Op.issue rfl))

/-- C2 counterexample: the standalone `/buzzer` endpoint calls the vendor
buzzer without acquiring `sdk_lock`, so a reachable interleaving fires
that buzzer call while the session bracket of another thread (and hence a
device operation) is in flight — refuting "the vendor buzzer call is
never concurrent with any other device call". -/
theorem c2_solo_buzz_counterexample : ¬ NoSoloBuzzDuringBracket cxOps := by
  intro h
  exact h cxS2 cxS3 1 0 Op.issue Phase.opened
    (Relation.ReflTransGen.tail
      (Relation.ReflTransGen.tail Relation.ReflTransGen.refl
        (Step.acquire (initSys cxOps) 0 Op.issue rfl rfl rfl))
      (Step.initOk cxS1 0 Op.issue rfl))
    (Step.buzzSolo cxS2 1 rfl) rfl rfl rfl rfl

/-- C2 (amended): buzzer calls issued *inside* the issue/read/erase
handlers do run under the exclusive serializer — a handler thread
anywhere in its device section holds `sdk_lock`, and no other thread is
simultaneously in a device section — but the standalone `/buzzer`
endpoint performs the vendor buzzer call without the serializer and can
therefore overlap other device calls (see the counterexample). -/
theorem c2_handler_buzz_exclusive (ops : List Op) (s : Sys)
    (h : Reach ops s) (i : Nat) (op : Op) (ph : Phase)
    (hop : lockedOp op = true) (hi : s.thr[i]? = some (op, ph))
    (hph : holdsPhase ph = true) :
    s.lock = some i ∧
    ∀ (j : Nat) (opj : Op) (phj : Phase), s.thr[j]? = some (opj, phj) →
      holdsPhase phj = true → j = i := by
  have hinv := lockInv_reach h
  have h1 := hinv i op ph hi hph
  refine ⟨h1, fun j opj phj hj hphj => ?_⟩
  have h2 := hinv j opj phj hj hphj
  rw [h1] at h2
  exact (Option.some.inj h2).symm

/-- C2 amended witness: the issue thread of the concrete schedule holds
the lock exclusively while in its device section. -/
theorem c2_handler_buzz_exclusive_witness :
    cxS1.lock = some 0 ∧
    ∀ (j : Nat) (opj : Op) (phj : Phase), cxS1.thr[j]? = some (opj, phj) →
      holdsPhase phj = true → j = 0 :=
  c2_handler_buzz_exclusive cxOps cxS1
    (Relation.ReflTransGen.tail Relation.ReflTransGen.refl
      (Step.acquire (initSys cxOps) 0 Op.issue rfl rfl rfl))
    0 Op.issue Phase.locked rfl rfl rfl

end Keycard

